import Mathlib

/-!
Verification of the configuration-resolution and transport-dispatch layer of
`cmd/github-mcp-server/main.go` (annie2000/github-mcp-server).

The Go program is shallowly embedded below.  Pure helpers become Lean
functions; the layered configuration store (spf13/viper together with the
spf13/pflag flag registry, as wired by `init` and `initConfig` in main.go) is
embedded as an explicit state `ViperState` with the library's documented
lookup precedence: an explicitly-set (changed) bound flag wins over an
environment variable (consulted only once `AutomaticEnv` has been enabled and
non-empty, with the upper-cased `GITHUB_` prefix), which wins over the bound
flag's registered default.  Fallible code returns `Except`/`Option`.
-/

namespace GhMcp

/-- A typed configuration value, mirroring the three value shapes the program
stores in flags and reads through viper: `string`, `bool`, `[]string`. -/
inductive ConfigValue
  | str (s : String)
  | boolean (b : Bool)
  | strList (l : List String)
  deriving DecidableEq, Repr

/-- The state of the viper/pflag configuration layer as `main.go` wires it:
registered flag defaults, explicitly set ("changed") flag values, the
viper-key-to-flag bindings installed by `viper.BindPFlag`, the environment
prefix from `viper.SetEnvPrefix`, whether `viper.AutomaticEnv` has been
called, and the process environment (`none` = variable not present). -/
structure ViperState where
  flagDefaults : List (String × ConfigValue)
  flagSet : List (String × ConfigValue)
  bindings : List (String × String)
  envPfx : String
  automaticEnvEnabled : Bool
  env : String → Option String

/-- ASCII upper-casing of one character, as `strings.ToUpper` acts on the
ASCII-only key names of this program. -/
def asciiUpperChar (c : Char) : Char :=
  if 'a' ≤ c ∧ c ≤ 'z' then Char.ofNat (c.toNat - 32) else c

/-- ASCII upper-casing of a string (all key names involved are ASCII). -/
def asciiUpper (s : String) : String :=
  ⟨s.data.map asciiUpperChar⟩

/-- The environment-variable name viper consults for a key under
`AutomaticEnv`: upper-cased prefix, underscore, upper-cased key
(`mergeWithEnvPrefix` in viper). -/
def envKeyOf (s : ViperState) (key : String) : String :=
  asciiUpper (s.envPfx ++ "_" ++ key)

/-- Environment lookup as viper performs it: a variable that is present but
empty is treated as unset (viper's default `AllowEmptyEnv = false`). -/
def viperEnvLookup (s : ViperState) (key : String) : Option String :=
  match s.env (envKeyOf s key) with
  | some v => if v = "" then none else some v
  | none => none

/-- viper's `Get` for this program's configuration: a bound flag that was
explicitly set wins; otherwise, with `AutomaticEnv` enabled, a non-empty
environment variable; otherwise the bound flag's registered default;
an unbound key can only come from the environment. -/
def viperGet (s : ViperState) (key : String) : Option ConfigValue :=
  match s.bindings.lookup key with
  | some flagName =>
    match s.flagSet.lookup flagName with
    | some v => some v
    | none =>
      if s.automaticEnvEnabled then
        match viperEnvLookup s key with
        | some ev => some (.str ev)
        | none => s.flagDefaults.lookup flagName
      else s.flagDefaults.lookup flagName
  | none =>
    if s.automaticEnvEnabled then (viperEnvLookup s key).map .str
    else none

/-- viper's string cast (`cast.ToString`): strings pass through, booleans
format, a `[]string` fails the cast and `GetString` yields `""`. -/
def castToString : Option ConfigValue → String
  | some (.str s) => s
  | some (.boolean b) => if b then "true" else "false"
  | some (.strList _) => ""
  | none => ""

/-- Go's `strconv.ParseBool` acceptance set for `true`. -/
def parseBoolTrue (s : String) : Bool :=
  s = "1" || s = "t" || s = "T" || s = "true" || s = "TRUE" || s = "True"

/-- viper's bool cast (`cast.ToBool`): booleans pass through, strings go
through `strconv.ParseBool` (errors yield `false`), lists fail to `false`. -/
def castToBool : Option ConfigValue → Bool
  | some (.boolean b) => b
  | some (.str s) => parseBoolTrue s
  | some (.strList _) => false
  | none => false

/-- `viper.GetString key`. -/
def getString (s : ViperState) (key : String) : String :=
  castToString (viperGet s key)

/-- `viper.GetBool key`. -/
def getBool (s : ViperState) (key : String) : Bool :=
  castToBool (viperGet s key)

/-- `strings.Split(raw, ",")` on the character level: splitting at every
comma, keeping empty segments, with the empty input giving one empty
segment. -/
def goSplitComma : List Char → List (List Char)
  | [] => [[]]
  | c :: rest =>
    if c = ',' then [] :: goSplitComma rest
    else
      match goSplitComma rest with
      | seg :: segs => (c :: seg) :: segs
      | [] => [[c]]

/-- Comma splitting as mapstructure's `StringToSliceHookFunc(",")` performs
it during `viper.UnmarshalKey` into a `[]string`: the empty string decodes to
the empty list, anything else is `strings.Split(raw, ",")`. -/
def splitOnComma (raw : String) : List String :=
  if raw = "" then [] else (goSplitComma raw.data).map fun cs => ⟨cs⟩

/-- The decoding `viper.UnmarshalKey key &([]string)` applies to the looked
up value: a stored `[]string` passes through, a raw string (the environment
case) is split on commas by the decoder's string-to-slice hook, an absent
key leaves the slice empty. -/
def decodeStringSlice : Option ConfigValue → Except String (List String)
  | some (.strList l) => .ok l
  | some (.str v) => .ok (splitOnComma v)
  | some (.boolean _) => .error "cannot decode bool into string slice"
  | none => .ok []

/-- `viper.UnmarshalKey key &([]string)`: viper lookup followed by the
decoder. -/
def unmarshalKeyStringSlice (s : ViperState) (key : String) :
    Except String (List String) :=
  decodeStringSlice (viperGet s key)

/-- `initConfig` in main.go: `viper.SetEnvPrefix("github")` followed by
`viper.AutomaticEnv()`. -/
def initConfig (s : ViperState) : ViperState :=
  { s with envPfx := "github", automaticEnvEnabled := true }

/-- `wordSepNormalizeFunc` in main.go: every `_` in a flag name is replaced
by `-` (the single-character `strings.ReplaceAll` loop, expressed as the
equivalent character map). -/
def wordSepNormalizeFunc (name : String) : String :=
  ⟨name.data.map fun c => if c = '_' then '-' else c⟩

/-- Modelled from the spec: `github.DefaultTools` (package `pkg/github` is
not in the sources); the built-in default toolset list, opaque to this core.
The model takes it as a parameter so nothing depends on its contents. -/
def defaultToolsPlaceholder : List String := ["all"]

/-- The flag registry built by `init` in main.go: each persistent flag with
its registered default value (flag names already in normalized hyphen form,
as `wordSepNormalizeFunc` leaves them). -/
def registeredFlags (defaultTools : List String) : List (String × ConfigValue) :=
  [("toolsets", .strList defaultTools),
   ("dynamic-toolsets", .boolean false),
   ("read-only", .boolean false),
   ("log-file", .str ""),
   ("enable-command-logging", .boolean false),
   ("export-translations", .boolean false),
   ("gh-host", .str "")]

/-- The `viper.BindPFlag` calls of `init` in main.go: viper key to flag
name. -/
def viperBindings : List (String × String) :=
  [("toolsets", "toolsets"),
   ("dynamic_toolsets", "dynamic-toolsets"),
   ("read-only", "read-only"),
   ("log-file", "log-file"),
   ("enable-command-logging", "enable-command-logging"),
   ("export-translations", "export-translations"),
   ("host", "gh-host")]

/-- The configuration state right after package `init` has run: flags
registered with their defaults, no flag explicitly set yet, bindings
installed, environment handling not yet initialized (`initConfig` is only
registered as a cobra initializer, it has not run). -/
def baseState (defaultTools : List String) (env : String → Option String) :
    ViperState :=
  { flagDefaults := registeredFlags defaultTools
    flagSet := []
    bindings := viperBindings
    envPfx := ""
    automaticEnvEnabled := false
    env := env }

/-- The build-time `version` variable of main.go (its unlinked default). -/
def version : String := "version"

/-- `ghmcp.StdioServerConfig` as populated by `stdioCmd.RunE`. -/
structure StdioServerConfig where
  version : String
  host : String
  token : String
  enabledToolsets : List String
  dynamicToolsets : Bool
  readOnly : Bool
  exportTranslations : Bool
  enableCommandLogging : Bool
  logFilePath : String
  deriving DecidableEq, Repr

/-- The outcome of `stdioCmd.RunE` up to the hand-off to the external
Protocol Loop: either an error returned before any transport starts, or the
invocation `ghmcp.RunStdioServer cfg` with the assembled configuration. -/
inductive RunEOutcome
  | error (msg : String)
  | runLoop (cfg : StdioServerConfig)
  deriving DecidableEq, Repr

/-- `stdioCmd.RunE` in main.go: read the token, fail when it is empty,
decode the toolset list (propagating its error wrapped), and otherwise call
`ghmcp.RunStdioServer` with the assembled `StdioServerConfig`. -/
def stdioRunE (s : ViperState) : RunEOutcome :=
  let token := getString s "personal_access_token"
  if token = "" then
    .error "GITHUB_PERSONAL_ACCESS_TOKEN not set"
  else
    match unmarshalKeyStringSlice s "toolsets" with
    | .error e => .error ("failed to unmarshal toolsets: " ++ e)
    | .ok enabledToolsets =>
      .runLoop
        { version := version
          host := getString s "host"
          token := token
          enabledToolsets := enabledToolsets
          dynamicToolsets := getBool s "dynamic_toolsets"
          readOnly := getBool s "read-only"
          exportTranslations := getBool s "export-translations"
          enableCommandLogging := getBool s "enable-command-logging"
          logFilePath := getString s "log-file" }

/-- The `error` value `stdioCmd.RunE` returns to its caller, given the
behaviour of the external loop (`loop cfg = some msg` means
`ghmcp.RunStdioServer cfg` returned that error, `none` means it returned
`nil`). -/
def stdioRunEResult (loop : StdioServerConfig → Option String)
    (s : ViperState) : Option String :=
  match stdioRunE s with
  | .error m => some m
  | .runLoop cfg => loop cfg

/-- An HTTP request as the handlers see it: only method and path matter to
this program. -/
structure Request where
  method : String
  path : String
  deriving DecidableEq, Repr

/-- An HTTP response: status code, Content-Type header, body bytes. -/
structure HttpResponse where
  status : Nat
  contentType : String
  body : String
  deriving DecidableEq, Repr

/-- A JSON value, with object fields kept in the order Go's `encoding/json`
emits them (struct fields in declaration order; map keys sorted). -/
inductive Json
  | str (s : String)
  | arr (xs : List Json)
  | obj (fields : List (String × Json))

mutual

/-- Compact serialization of a JSON value as `encoding/json` produces it
(none of the strings in this program need escaping). -/
def encodeJson : Json → String
  | .str s => "\"" ++ s ++ "\""
  | .arr xs => "[" ++ encodeJsonList xs ++ "]"
  | .obj fs => "\x7b" ++ encodeJsonFields fs ++ "\x7d"

/-- Comma-separated encoding of array elements. -/
def encodeJsonList : List Json → String
  | [] => ""
  | [x] => encodeJson x
  | x :: y :: xs => encodeJson x ++ "," ++ encodeJsonList (y :: xs)

/-- Comma-separated encoding of object fields. -/
def encodeJsonFields : List (String × Json) → String
  | [] => ""
  | [(k, v)] => "\"" ++ k ++ "\":" ++ encodeJson v
  | (k, v) :: f :: fs =>
    "\"" ++ k ++ "\":" ++ encodeJson v ++ "," ++ encodeJsonFields (f :: fs)

end

/-- The `Tool` struct of main.go with its `json` tags: field names as they
are marshalled, in declaration order. -/
structure Tool where
  name : String
  description : String
  inputSpec : Json
  outputSpec : Json

/-- The JSON object `encoding/json` produces for one `Tool` value. -/
def Tool.toJson (t : Tool) : Json :=
  .obj [("name", .str t.name), ("description", .str t.description),
        ("input_spec", t.inputSpec), ("output_spec", t.outputSpec)]

/-- The hard-coded `tools` slice of `toolsHandler`, with each
`map[string]string` spec written in the sorted key order `encoding/json`
uses for maps. -/
def toolsList : List Tool :=
  [{ name := "Airbnb Search"
     description := "Search Airbnb listings"
     inputSpec := .obj [("check_in", .str "date"), ("check_out", .str "date"),
                        ("location", .str "string")]
     outputSpec := .obj [("listings", .str "array")] },
   { name := "Airbnb Listing Details"
     description := "Get details for a specific listing"
     inputSpec := .obj [("listing_id", .str "string")]
     outputSpec := .obj [("details", .str "object")] }]

/-- The top-level document `toolsHandler` encodes: a one-key map holding the
tool descriptors. -/
def toolsDocument : Json :=
  .obj [("tools", .arr (toolsList.map Tool.toJson))]

/-- `toolsHandler` in main.go: sets `Content-Type: application/json` and
encodes the fixed document (`json.Encoder.Encode` appends a newline); the
implicit status of a handler that only writes is 200.  The request is
ignored entirely. -/
def toolsHandler (_ : Request) : HttpResponse :=
  { status := 200
    contentType := "application/json"
    body := encodeJson toolsDocument ++ "\n" }

/-- The handler registered on `"/"` in `main`: always prints the fixed
liveness line (`fmt.Fprintln` appends the newline) with implicit status 200
and Go's sniffed `text/plain` content type. -/
def rootHandler (_ : Request) : HttpResponse :=
  { status := 200
    contentType := "text/plain; charset=utf-8"
    body := "GitHub MCP Server is running\n" }

/-- The handler registered on `"/run-stdio"` in `main`: call
`stdioCmd.RunE` synchronously; on error respond via `http.Error` (status
500, the formatted error text plus newline); on success print the
confirmation line with implicit status 200. -/
def runStdioHandler (loop : StdioServerConfig → Option String)
    (s : ViperState) (_ : Request) : HttpResponse :=
  match stdioRunEResult loop s with
  | some m =>
    { status := 500
      contentType := "text/plain; charset=utf-8"
      body := "Failed to run stdio server: " ++ m ++ "\n" }
  | none =>
    { status := 200
      contentType := "text/plain; charset=utf-8"
      body := "Stdio server started\n" }

/-- Dispatch of the `http.ServeMux` built in `main` over its three
registered patterns, for canonical request paths: the patterns
`"/run-stdio"` and `"/tools"` (no trailing slash) match only their exact
path, and the pattern `"/"` matches every other path; no pattern constrains
the method. -/
def serveMux (loop : StdioServerConfig → Option String) (s : ViperState)
    (r : Request) : HttpResponse :=
  if r.path = "/run-stdio" then runStdioHandler loop s r
  else if r.path = "/tools" then toolsHandler r
  else rootHandler r

/-- `os.Getenv`: absent variables read as the empty string. -/
def osGetenv (env : String → Option String) (key : String) : String :=
  (env key).getD ""

/-- The port computation at the top of `main`: `PORT` from the environment,
defaulting to `"8080"` when unset or empty. -/
def portOf (env : String → Option String) : String :=
  let port := osGetenv env "PORT"
  if port = "" then "8080" else port

/-- Everything `main` writes to standard output before blocking in
`http.ListenAndServe`: the DEBUG line printing the raw credential
(`fmt.Println` separates its arguments with a space and appends a newline)
followed by the listening banner. -/
def startupOutput (env : String → Option String) : String :=
  "DEBUG: GITHUB_PERSONAL_ACCESS_TOKEN = "
    ++ osGetenv env "GITHUB_PERSONAL_ACCESS_TOKEN" ++ "\n"
    ++ "Listening on port " ++ portOf env ++ "...\n"

/-- What a process activation does after its startup output. -/
inductive ProcessAction
  | runStdioLoop (cfg : StdioServerConfig)
  | startHttpListener (port : String)
  deriving DecidableEq, Repr

/-- `main` in main.go: it never consults the argument vector (no
`rootCmd.Execute` call exists in the live code), computes the port, prints
the startup output and starts the HTTP listener unconditionally. -/
def mainAction (_argv : List String) (env : String → Option String) :
    ProcessAction :=
  .startHttpListener (portOf env)

/-!
Concurrency model for overlapping `/run-stdio` requests.  Go's `net/http`
serves each request on its own goroutine; the `/run-stdio` handler contains
no synchronization of any kind, so the handler bodies of two overlapping
requests may interleave arbitrarily.  One handler execution is abstracted to
its externally relevant events: entering the stdio loop, leaving it, or
answering with the pre-loop error.  Because the code imposes no ordering
between requests, every interleaving of the two event sequences is an
admissible schedule.
-/

/-- One observable event of a `/run-stdio` handler execution, tagged with
the request it belongs to. -/
inductive StdioStep
  | beginLoop (rid : Nat) (cfg : StdioServerConfig)
  | endLoop (rid : Nat)
  | respondError (rid : Nat) (msg : String)
  deriving DecidableEq, Repr

/-- The event sequence of one `/run-stdio` request: when `stdioCmd.RunE`
reaches `ghmcp.RunStdioServer` the loop runs from `beginLoop` to `endLoop`;
otherwise the pre-loop error is returned immediately. -/
def handlerSteps (rid : Nat) (s : ViperState) : List StdioStep :=
  match stdioRunE s with
  | .runLoop cfg => [.beginLoop rid cfg, .endLoop rid]
  | .error m => [.respondError rid m]

/-- `Interleaving xs ys zs`: `zs` is an order-preserving merge of `xs` and
`ys` — one admissible schedule of two concurrent handler executions. -/
inductive Interleaving : List StdioStep → List StdioStep → List StdioStep → Prop
  | nilLeft (ys : List StdioStep) : Interleaving [] ys ys
  | nilRight (xs : List StdioStep) : Interleaving xs [] xs
  | consLeft (x : StdioStep) (xs ys zs : List StdioStep) :
      Interleaving xs ys zs → Interleaving (x :: xs) ys (x :: zs)
  | consRight (y : StdioStep) (xs ys zs : List StdioStep) :
      Interleaving xs ys zs → Interleaving xs (y :: ys) (y :: zs)

/-- Running count of simultaneously active stdio loops along a schedule,
returning the maximum ever reached (`cur` active now, `best` maximum so
far). -/
def maxActiveAux : Nat → Nat → List StdioStep → Nat
  | _, best, [] => best
  | cur, best, .beginLoop _ _ :: r => maxActiveAux (cur + 1) (max best (cur + 1)) r
  | cur, best, .endLoop _ :: r => maxActiveAux (cur - 1) best r
  | cur, best, .respondError _ _ :: r => maxActiveAux cur best r

/-- The largest number of stdio loops simultaneously active under a
schedule. -/
def maxActive (tr : List StdioStep) : Nat :=
  maxActiveAux 0 0 tr

/-- Whether a handler execution reaches the stdio loop invocation. -/
def reachesLoop (steps : List StdioStep) : Bool :=
  steps.any fun st =>
    match st with
    | .beginLoop _ _ => true
    | _ => false

/-- Whether a handler execution answers with an error instead of invoking
the loop. -/
def answersError (steps : List StdioStep) : Bool :=
  steps.any fun st =>
    match st with
    | .respondError _ _ => true
    | _ => false

/-- Whether a JSON value is an object carrying the given key. -/
def objHasKey (j : Json) (k : String) : Bool :=
  match j with
  | .obj fs => (fs.lookup k).isSome
  | _ => false

/-- The key list of a JSON object (empty for non-objects). -/
def topLevelKeys (j : Json) : List String :=
  match j with
  | .obj fs => fs.map Prod.fst
  | _ => []

/-- The configuration state with environment handling initialized and an
arbitrary set of explicitly supplied flags. -/
def stateWith (defaultTools : List String) (env : String → Option String)
    (fs : List (String × ConfigValue)) : ViperState :=
  initConfig { baseState defaultTools env with flagSet := fs }

/-- An empty process environment. -/
def envNone : String → Option String := fun _ => none

/-- A process environment carrying only the credential `tok123`. -/
def envTok123 : String → Option String :=
  fun k => if k = "GITHUB_PERSONAL_ACCESS_TOKEN" then some "tok123" else none

/-- A Protocol Loop stub that runs to completion without error. -/
def loopOk : StdioServerConfig → Option String := fun _ => none

/-- The configuration state with no environment variables and no flags set
and environment handling never initialized, as the live process leaves
viper for every `/run-stdio` request. -/
def sNone : ViperState := baseState ["all"] envNone

/-- The initialized configuration state in which the credential resolves:
environment handling enabled and the token present. -/
def hotState : ViperState := initConfig (baseState ["all"] envTok123)

/-- The `StdioServerConfig` the entry point assembles from `hotState`. -/
def cfgTok123 : StdioServerConfig :=
  { version := "version", host := "", token := "tok123",
    enabledToolsets := ["all"], dynamicToolsets := false, readOnly := false,
    exportTranslations := false, enableCommandLogging := false,
    logFilePath := "" }

/-- A process environment whose only entry is the credential `secretA`. -/
def envSecretA : String → Option String :=
  fun k => if k = "GITHUB_PERSONAL_ACCESS_TOKEN" then some "secretA" else none

/-- A process environment whose only entry is the credential `secretB`:
it differs from `envSecretA` only in the credential's value. -/
def envSecretB : String → Option String :=
  fun k => if k = "GITHUB_PERSONAL_ACCESS_TOKEN" then some "secretB" else none

/-- A process environment whose only entry is the raw toolset string
`a,b,c`. -/
def envABC : String → Option String :=
  fun k => if k = "GITHUB_TOOLSETS" then some "a,b,c" else none

/-- The flag assignment of the precedence witness: `--read-only` supplied
explicitly as `true`. -/
def fsReadOnly : List (String × ConfigValue) := [("read-only", .boolean true)]

/-- The environment of the precedence witness: an environment value for the
`read-only` key that disagrees with the flag, and one for the unset
`log-file` flag. -/
def envRO : String → Option String :=
  fun k =>
    if k = "GITHUB_READ-ONLY" then some "false"
    else if k = "GITHUB_LOG-FILE" then some "x.log" else none

/-!  Generic resolution lemmas for `viperGet`, shared by several claims. -/

/-- An explicitly set bound flag wins: whatever the environment holds, the
flag's value is returned. -/
theorem viperGet_flag_wins (s : ViperState) (key flagName : String)
    (v : ConfigValue) (hb : s.bindings.lookup key = some flagName)
    (hf : s.flagSet.lookup flagName = some v) :
    viperGet s key = some v := by
  simp only [viperGet, hb, hf]

/-- With the bound flag not explicitly set and the environment carrying a
value, the environment value is returned. -/
theorem viperGet_env_wins (s : ViperState) (key flagName : String)
    (ev : String) (hb : s.bindings.lookup key = some flagName)
    (hf : s.flagSet.lookup flagName = none)
    (ha : s.automaticEnvEnabled = true)
    (he : viperEnvLookup s key = some ev) :
    viperGet s key = some (.str ev) := by
  simp only [viperGet, hb, hf, ha, he, if_true]

/-- With the bound flag not explicitly set and the environment empty, the
flag's registered default is returned. -/
theorem viperGet_default (s : ViperState) (key flagName : String)
    (hb : s.bindings.lookup key = some flagName)
    (hf : s.flagSet.lookup flagName = none)
    (ha : s.automaticEnvEnabled = true)
    (he : viperEnvLookup s key = none) :
    viperGet s key = s.flagDefaults.lookup flagName := by
  simp only [viperGet, hb, hf, ha, he, if_true]

/-- C4: `wordSepNormalizeFunc` is a pure, idempotent key normalizer: it
replaces each underscore by a hyphen, normalizing an already-canonical key
returns it unchanged, and the two spellings `foo_bar` and `foo-bar`
normalize to the same canonical key. -/
theorem C4_normalizer_idempotent :
    (∀ name : String,
      wordSepNormalizeFunc (wordSepNormalizeFunc name) = wordSepNormalizeFunc name)
    ∧ wordSepNormalizeFunc "foo_bar" = wordSepNormalizeFunc "foo-bar"
    ∧ wordSepNormalizeFunc "foo_bar" = "foo-bar" := by
  refine ⟨?_, by decide, by decide⟩
  intro name
  refine String.ext ?_
  show (name.data.map (fun c => if c = '_' then '-' else c)).map
      (fun c => if c = '_' then '-' else c)
    = name.data.map (fun c => if c = '_' then '-' else c)
  rw [List.map_map]
  refine List.map_congr_left ?_
  intro c _
  by_cases h : c = '_' <;> simp [h, Function.comp]

/-- C1: whenever the resolved credential token is the empty string,
`stdioCmd.RunE` returns the missing-credential error and
`ghmcp.RunStdioServer` is never invoked, so no transport starts for that
activation. -/
theorem C1_missing_credential (s : ViperState)
    (h : getString s "personal_access_token" = "") :
    stdioRunE s = .error "GITHUB_PERSONAL_ACCESS_TOKEN not set"
    ∧ ∀ cfg : StdioServerConfig, stdioRunE s ≠ .runLoop cfg := by
  have he : stdioRunE s = .error "GITHUB_PERSONAL_ACCESS_TOKEN not set" := by
    simp [stdioRunE, h]
  exact ⟨he, fun cfg hc => by simp [he] at hc⟩

/-- Witness for C1: the state with no token set anywhere resolves the
credential to the empty string, and the entry point returns the
missing-credential error there. -/
theorem C1_missing_credential_witness :
    getString sNone "personal_access_token" = ""
    ∧ stdioRunE sNone = .error "GITHUB_PERSONAL_ACCESS_TOKEN not set" :=
  ⟨by decide, (C1_missing_credential sNone (by decide)).1⟩

/-- C2: with environment handling initialized, the raw environment string
`a,b,c` for the `toolsets` key resolves to the ordered list
`[a, b, c]`, and with the key unset everywhere the resolved list is the
registered built-in default set. -/
theorem C2_toolsets (d : List String) (env : String → Option String) :
    (env "GITHUB_TOOLSETS" = some "a,b,c" →
      unmarshalKeyStringSlice (initConfig (baseState d env)) "toolsets" =
        .ok ["a", "b", "c"])
    ∧ (env "GITHUB_TOOLSETS" = none →
      unmarshalKeyStringSlice (initConfig (baseState d env)) "toolsets" = .ok d) := by
  have hkey : envKeyOf (initConfig (baseState d env)) "toolsets" = "GITHUB_TOOLSETS" := rfl
  have hb : List.lookup "toolsets" (initConfig (baseState d env)).bindings =
      some "toolsets" := rfl
  have hf : List.lookup "toolsets" (initConfig (baseState d env)).flagSet = none := rfl
  have hauto : (initConfig (baseState d env)).automaticEnvEnabled = true := rfl
  have henvf : (initConfig (baseState d env)).env = env := rfl
  constructor
  · intro h
    have henv : viperEnvLookup (initConfig (baseState d env)) "toolsets" =
        some "a,b,c" := by
      simp only [viperEnvLookup, hkey, henvf, h]
      simp
    have hget := viperGet_env_wins _ _ _ _ hb hf hauto henv
    rw [unmarshalKeyStringSlice, hget]
    rfl
  · intro h
    have henv : viperEnvLookup (initConfig (baseState d env)) "toolsets" = none := by
      simp only [viperEnvLookup, hkey, henvf, h]
    have hget := viperGet_default _ _ _ hb hf hauto henv
    have hdef : List.lookup "toolsets" (initConfig (baseState d env)).flagDefaults =
        some (.strList d) := rfl
    rw [unmarshalKeyStringSlice, hget, hdef]
    rfl

/-- Witness for C2: concrete environments exercising both branches — the
raw string `a,b,c` resolves to `["a", "b", "c"]`, and an empty environment
resolves to the registered default list. -/
theorem C2_toolsets_witness :
    (envABC "GITHUB_TOOLSETS" = some "a,b,c"
      ∧ unmarshalKeyStringSlice (initConfig (baseState ["all"] envABC)) "toolsets" =
          .ok ["a", "b", "c"])
    ∧ (envNone "GITHUB_TOOLSETS" = none
      ∧ unmarshalKeyStringSlice (initConfig (baseState ["all"] envNone)) "toolsets" =
          .ok ["all"]) :=
  ⟨⟨by decide, (C2_toolsets ["all"] envABC).1 (by decide)⟩,
   ⟨by decide, (C2_toolsets ["all"] envNone).2 (by decide)⟩⟩

/-- C3: for every key bound to a flag, when the flag is explicitly set each
typed accessor resolves to the flag's value whatever the environment holds,
and when the flag is not set a present environment value is what every
typed accessor resolves to, overriding the registered default. -/
theorem C3_precedence (d : List String) (env : String → Option String)
    (fs : List (String × ConfigValue)) (key flagName : String)
    (hbind : viperBindings.lookup key = some flagName) :
    (∀ v : ConfigValue, fs.lookup flagName = some v →
      getString (stateWith d env fs) key = castToString (some v)
      ∧ getBool (stateWith d env fs) key = castToBool (some v)
      ∧ unmarshalKeyStringSlice (stateWith d env fs) key = decodeStringSlice (some v))
    ∧ (∀ ev : String, fs.lookup flagName = none →
      viperEnvLookup (stateWith d env fs) key = some ev →
      getString (stateWith d env fs) key = castToString (some (.str ev))
      ∧ getBool (stateWith d env fs) key = castToBool (some (.str ev))
      ∧ unmarshalKeyStringSlice (stateWith d env fs) key =
          decodeStringSlice (some (.str ev))) := by
  have hb : (stateWith d env fs).bindings.lookup key = some flagName := hbind
  have hauto : (stateWith d env fs).automaticEnvEnabled = true := rfl
  constructor
  · intro v hf
    have hfs : (stateWith d env fs).flagSet.lookup flagName = some v := hf
    have hget := viperGet_flag_wins _ _ _ _ hb hfs
    exact ⟨by rw [getString, hget], by rw [getBool, hget],
      by rw [unmarshalKeyStringSlice, hget]⟩
  · intro ev hf he
    have hfs : (stateWith d env fs).flagSet.lookup flagName = none := hf
    have hget := viperGet_env_wins _ _ _ _ hb hfs hauto he
    exact ⟨by rw [getString, hget], by rw [getBool, hget],
      by rw [unmarshalKeyStringSlice, hget]⟩

/-- Witness for C3: with `--read-only` set to `true` while the environment
says `false`, `getBool` resolves to the flag's `true`; with `--log-file`
unset and the environment carrying `x.log`, `getString` resolves to the
environment's value rather than the registered default `""`. -/
theorem C3_precedence_witness :
    (viperBindings.lookup "read-only" = some "read-only"
      ∧ fsReadOnly.lookup "read-only" = some (.boolean true)
      ∧ getBool (stateWith ["all"] envRO fsReadOnly) "read-only" =
          castToBool (some (.boolean true)))
    ∧ (viperBindings.lookup "log-file" = some "log-file"
      ∧ fsReadOnly.lookup "log-file" = none
      ∧ viperEnvLookup (stateWith ["all"] envRO fsReadOnly) "log-file" = some "x.log"
      ∧ getString (stateWith ["all"] envRO fsReadOnly) "log-file" =
          castToString (some (.str "x.log"))) :=
  ⟨⟨by decide, by decide,
    ((C3_precedence ["all"] envRO fsReadOnly "read-only" "read-only"
      (by decide)).1 (.boolean true) (by decide)).2.1⟩,
   ⟨by decide, by decide, by decide,
    ((C3_precedence ["all"] envRO fsReadOnly "log-file" "log-file"
      (by decide)).2 "x.log" (by decide) (by decide)).1⟩⟩

/-- C5: every call to `/tools` — whatever the request — produces the same
response: status 200, JSON content type, and a body that serializes a
document whose single top-level key is `tools`, holding the ordered tool
descriptors, each of which carries the `name`, `description`, `input_spec`
and `output_spec` fields; the handler is a pure function, so repeated calls
return byte-identical bodies. -/
theorem C5_tools_endpoint (r r2 : Request) :
    toolsHandler r = toolsHandler r2
    ∧ (toolsHandler r).status = 200
    ∧ (toolsHandler r).contentType = "application/json"
    ∧ (toolsHandler r).body = encodeJson toolsDocument ++ "\n"
    ∧ topLevelKeys toolsDocument = ["tools"]
    ∧ (∀ t ∈ toolsList.map Tool.toJson,
        objHasKey t "name" = true ∧ objHasKey t "description" = true
        ∧ objHasKey t "input_spec" = true ∧ objHasKey t "output_spec" = true)
    ∧ toolsDocument = .obj [("tools", .arr (toolsList.map Tool.toJson))]
    ∧ (∀ (loop : StdioServerConfig → Option String) (s : ViperState) (m : String),
        serveMux loop s ⟨m, "/tools"⟩ = toolsHandler ⟨m, "/tools"⟩) := by
  refine ⟨rfl, rfl, rfl, rfl, rfl, ?_, rfl, fun loop s m => rfl⟩
  decide

/-- C6: the `/run-stdio` handler invokes the stdio entry point
synchronously; when the invocation returns an error the response is a 500
whose body carries the error text, and when it returns nil the response is
a 200 confirmation — the error is surfaced in the response, never
discarded. -/
theorem C6_run_stdio_responses (loop : StdioServerConfig → Option String)
    (s : ViperState) (r : Request) :
    (∀ m : String, stdioRunEResult loop s = some m →
      runStdioHandler loop s r =
        { status := 500, contentType := "text/plain; charset=utf-8",
          body := "Failed to run stdio server: " ++ m ++ "\n" })
    ∧ (stdioRunEResult loop s = none →
      runStdioHandler loop s r =
        { status := 200, contentType := "text/plain; charset=utf-8",
          body := "Stdio server started\n" }) := by
  constructor
  · intro m h
    rw [runStdioHandler, h]
  · intro h
    rw [runStdioHandler, h]

/-- Witness for C6: in the uninitialized state the invocation fails and the
handler answers 500 with the error text in the body; in the initialized
state with a token and a loop that returns nil, it answers 200. -/
theorem C6_run_stdio_responses_witness :
    (stdioRunEResult loopOk sNone = some "GITHUB_PERSONAL_ACCESS_TOKEN not set"
      ∧ runStdioHandler loopOk sNone ⟨"GET", "/run-stdio"⟩ =
        { status := 500, contentType := "text/plain; charset=utf-8",
          body := "Failed to run stdio server: "
            ++ "GITHUB_PERSONAL_ACCESS_TOKEN not set" ++ "\n" })
    ∧ (stdioRunEResult loopOk hotState = none
      ∧ runStdioHandler loopOk hotState ⟨"GET", "/run-stdio"⟩ =
        { status := 200, contentType := "text/plain; charset=utf-8",
          body := "Stdio server started\n" }) :=
  ⟨⟨by decide, (C6_run_stdio_responses loopOk sNone ⟨"GET", "/run-stdio"⟩).1
      "GITHUB_PERSONAL_ACCESS_TOKEN not set" (by decide)⟩,
   ⟨by decide, (C6_run_stdio_responses loopOk hotState ⟨"GET", "/run-stdio"⟩).2 (by decide)⟩⟩

/-- C7 (divergence witnessed): invoking the process with the `stdio`
subcommand and `GITHUB_PERSONAL_ACCESS_TOKEN=tok123` does not select the
stdio transport: `main` never dispatches on the argument vector, so the
activation starts the HTTP listener on port 8080 and no invocation of the
Protocol Loop occurs; moreover the entry point invoked with the in-process
configuration state cannot even see the environment token, because the
initializer enabling environment lookup is registered only with the never
executed root command, so it returns the missing-credential error instead
of running the loop with `Token = tok123`. -/
theorem C7_stdio_subcommand_never_runs :
    mainAction ["stdio"] envTok123 = .startHttpListener "8080"
    ∧ (∀ cfg : StdioServerConfig, mainAction ["stdio"] envTok123 ≠ .runStdioLoop cfg)
    ∧ stdioRunE (baseState ["all"] envTok123) =
        .error "GITHUB_PERSONAL_ACCESS_TOKEN not set" := by
  refine ⟨by decide, ?_, by decide⟩
  intro cfg h
  simp only [mainAction] at h
  exact ProcessAction.noConfusion h

/-- C9 is false on the code: two activations differing only in the value of
`GITHUB_PERSONAL_ACCESS_TOKEN` (here `secretA` versus `secretB`) produce
different startup output — the DEBUG line prints the raw credential. -/
theorem C9_counterexample :
    startupOutput envSecretA ≠ startupOutput envSecretB := by
  decide

/-- C9 (amended): the startup output embeds the raw credential value: for
any two environments agreeing on the port, the startup outputs coincide
exactly when the credential values coincide, so the output reveals the
token's content, not merely its presence. -/
theorem C9_startup_output_reveals_token (env1 env2 : String → Option String)
    (hp : portOf env1 = portOf env2) :
    startupOutput env1 = startupOutput env2 ↔
      osGetenv env1 "GITHUB_PERSONAL_ACCESS_TOKEN" =
        osGetenv env2 "GITHUB_PERSONAL_ACCESS_TOKEN" := by
  constructor
  · intro h
    have hd := congrArg String.data h
    simp only [startupOutput, String.data_append, List.append_assoc] at hd
    have h1 := List.append_cancel_left hd
    rw [hp] at h1
    have h2 := List.append_cancel_right h1
    exact String.ext h2
  · intro h
    rw [startupOutput, startupOutput, h, hp]

/-- Witness for the amended C9: the two concrete single-entry environments
agree on the port, and the equivalence instantiates to them. -/
theorem C9_startup_output_reveals_token_witness :
    portOf envSecretA = portOf envSecretB
    ∧ (startupOutput envSecretA = startupOutput envSecretB ↔
        osGetenv envSecretA "GITHUB_PERSONAL_ACCESS_TOKEN" =
          osGetenv envSecretB "GITHUB_PERSONAL_ACCESS_TOKEN") :=
  ⟨by decide, C9_startup_output_reveals_token envSecretA envSecretB (by decide)⟩

/-- C10: the handler registered on `"/"` serves every request whose path is
not exactly `/run-stdio` and not exactly `/tools`, for any method, with the
fixed 200 liveness body. -/
theorem C10_catch_all (loop : StdioServerConfig → Option String)
    (s : ViperState) (r : Request)
    (h1 : r.path ≠ "/run-stdio") (h2 : r.path ≠ "/tools") :
    serveMux loop s r = rootHandler r
    ∧ (serveMux loop s r).status = 200
    ∧ (serveMux loop s r).body = "GitHub MCP Server is running\n" := by
  have hm : serveMux loop s r = rootHandler r := by
    rw [serveMux, if_neg h1, if_neg h2]
  exact ⟨hm, by rw [hm]; rfl, by rw [hm]; rfl⟩

/-- Witness for C10: `GET /does-not-exist` and `POST /` both fall through
to the liveness handler and receive the fixed 200 body. -/
theorem C10_catch_all_witness :
    (("/does-not-exist" : String) ≠ "/run-stdio"
      ∧ ("/does-not-exist" : String) ≠ "/tools"
      ∧ serveMux loopOk sNone ⟨"GET", "/does-not-exist"⟩ =
          rootHandler ⟨"GET", "/does-not-exist"⟩
      ∧ (serveMux loopOk sNone ⟨"GET", "/does-not-exist"⟩).body =
          "GitHub MCP Server is running\n")
    ∧ (("/" : String) ≠ "/run-stdio" ∧ ("/" : String) ≠ "/tools"
      ∧ serveMux loopOk sNone ⟨"POST", "/"⟩ = rootHandler ⟨"POST", "/"⟩) :=
  ⟨⟨by decide, by decide,
    (C10_catch_all loopOk sNone ⟨"GET", "/does-not-exist"⟩ (by decide) (by decide)).1,
    (C10_catch_all loopOk sNone ⟨"GET", "/does-not-exist"⟩ (by decide) (by decide)).2.2⟩,
   ⟨by decide, by decide,
    (C10_catch_all loopOk sNone ⟨"POST", "/"⟩ (by decide) (by decide)).1⟩⟩

/-- C8 is false on the code: the `/run-stdio` handler takes no guard of any
kind, so in the initialized state in which the entry point reaches the
Protocol Loop at all, two overlapping requests both proceed to the loop,
neither receives a rejection response, and the schedule under which both
loops are simultaneously active is admissible — reaching two active stdio
loops, contradicting that exactly one proceeds while the other is
rejected. -/
theorem C8_counterexample :
    Interleaving (handlerSteps 1 hotState) (handlerSteps 2 hotState)
      [.beginLoop 1 cfgTok123, .beginLoop 2 cfgTok123, .endLoop 1, .endLoop 2]
    ∧ maxActive
        [.beginLoop 1 cfgTok123, .beginLoop 2 cfgTok123, .endLoop 1, .endLoop 2] = 2
    ∧ reachesLoop (handlerSteps 1 hotState) = true
    ∧ reachesLoop (handlerSteps 2 hotState) = true
    ∧ answersError (handlerSteps 1 hotState) = false
    ∧ answersError (handlerSteps 2 hotState) = false := by
  have h1 : handlerSteps 1 hotState = [.beginLoop 1 cfgTok123, .endLoop 1] := by
    decide
  have h2 : handlerSteps 2 hotState = [.beginLoop 2 cfgTok123, .endLoop 2] := by
    decide
  refine ⟨?_, by decide, by decide, by decide, by decide, by decide⟩
  rw [h1, h2]
  exact .consLeft _ _ _ _ (.consRight _ _ _ _ (.consLeft _ _ _ _ (.nilLeft _)))

/-- C8 (amended): whenever the stdio entry point reaches the loop
invocation, two overlapping `/run-stdio` requests both proceed — no
single-permit guard exists — neither receives a rejection, and a schedule
with two simultaneously active stdio loops is admissible. -/
theorem C8_no_single_permit_guard (s : ViperState) (cfg : StdioServerConfig)
    (h : stdioRunE s = .runLoop cfg) :
    reachesLoop (handlerSteps 1 s) = true
    ∧ reachesLoop (handlerSteps 2 s) = true
    ∧ answersError (handlerSteps 1 s) = false
    ∧ answersError (handlerSteps 2 s) = false
    ∧ Interleaving (handlerSteps 1 s) (handlerSteps 2 s)
        [.beginLoop 1 cfg, .beginLoop 2 cfg, .endLoop 1, .endLoop 2]
    ∧ maxActive [.beginLoop 1 cfg, .beginLoop 2 cfg, .endLoop 1, .endLoop 2] = 2 := by
  have h1 : handlerSteps 1 s = [.beginLoop 1 cfg, .endLoop 1] := by
    rw [handlerSteps, h]
  have h2 : handlerSteps 2 s = [.beginLoop 2 cfg, .endLoop 2] := by
    rw [handlerSteps, h]
  refine ⟨by rw [h1]; rfl, by rw [h2]; rfl, by rw [h1]; rfl, by rw [h2]; rfl, ?_, rfl⟩
  rw [h1, h2]
  exact .consLeft _ _ _ _ (.consRight _ _ _ _ (.consLeft _ _ _ _ (.nilLeft _)))

/-- Witness for the amended C8: in the initialized state with a token, the
entry point reaches the loop and the double-activation schedule follows. -/
theorem C8_no_single_permit_guard_witness :
    stdioRunE hotState = .runLoop cfgTok123
    ∧ (reachesLoop (handlerSteps 1 hotState) = true
      ∧ reachesLoop (handlerSteps 2 hotState) = true
      ∧ answersError (handlerSteps 1 hotState) = false
      ∧ answersError (handlerSteps 2 hotState) = false
      ∧ Interleaving (handlerSteps 1 hotState) (handlerSteps 2 hotState)
          [.beginLoop 1 cfgTok123, .beginLoop 2 cfgTok123, .endLoop 1, .endLoop 2]
      ∧ maxActive
          [.beginLoop 1 cfgTok123, .beginLoop 2 cfgTok123,
           .endLoop 1, .endLoop 2] = 2) :=
  ⟨by decide, C8_no_single_permit_guard hotState cfgTok123 (by decide)⟩

end GhMcp
